import Mathlib

set_option maxRecDepth 100000

/-!
Shallow embedding of the CHIP-8 interpreter from `src/chip8/src/lib.rs`.

Conventions of the embedding:
* `u8`/`u16` values are `Nat`s; wrapping arithmetic is written with an explicit
  `% 256` / `% 65536` exactly where the source uses `wrapping_add`,
  `overflowing_add`/`overflowing_sub`, compound shifts, or unchecked `+ 2`
  program-counter increments (which wrap in release builds).
* The fixed Rust arrays (`[u8; 4096]`, `[u8; 16]`, `[bool; 2048]`,
  `[bool; 16]`) are total functions `Nat → α` together with their declared
  sizes; Rust indexing panics when out of bounds, which is modelled by the
  size-checked accessors `readArr`/`writeArr` returning
  `StepError.indexOutOfBounds`. The nibble extractions `byte >> 4` and
  `byte & 0xf` on a `u8` are written `/ 16` and `% 16`.
* `Vec::push`/`Vec::pop` on the call stack are modelled with the list head as
  the top of the stack (`push` = cons, `pop` = uncons), the same LIFO
  discipline as pushing to and popping from the end of a `Vec`.
* The panics `expect("Attempted to return from subroutine on empty stack.")`,
  `unimplemented!` and the `panic!` in `load` are modelled as `Except.error`
  results (`StepError.stackUnderflow`, `StepError.unimplementedOpcode`,
  `LoadError.capacity`); a panic unwinds before any further mutation, so an
  error result carries no state.
* `rand::random::<u8>()` in the `CXNN` opcode is modelled by an extra
  `randValue` argument to `step`, masked to a byte.
-/

def SCREEN_WIDTH : Nat := 64

def SCREEN_HEIGHT : Nat := 32

def MEMORY_SIZE : Nat := 4096

/-- The error raised by `Chip8::load` (`panic!("Program too large to fit into memory.")`). -/
inductive LoadError
  | capacity
deriving DecidableEq

/-- The fatal conditions `Chip8::step` can hit: popping an empty call stack,
dispatching an unknown opcode pattern (which carries the four raw nibbles),
and any out-of-range array index (a Rust panic). -/
inductive StepError
  | stackUnderflow
  | unimplementedOpcode (n1 n2 n3 n4 : Nat)
  | indexOutOfBounds
deriving DecidableEq

/-- Checked read `a[i]` on an array of length `size`: Rust indexing panics
when out of bounds. -/
def readArr {α : Type} (size : Nat) (a : Nat → α) (i : Nat) : Except StepError α :=
  if i < size then Except.ok (a i) else Except.error StepError.indexOutOfBounds

/-- Checked write `a[i] = v` on an array of length `size`. -/
def writeArr {α : Type} (size : Nat) (a : Nat → α) (i : Nat) (v : α) :
    Except StepError (Nat → α) :=
  if i < size then Except.ok (fun j => if j = i then v else a j)
  else Except.error StepError.indexOutOfBounds

/-- `readArr` specialized to booleans, returning the stored value through a
`match` (semantically the identity on it — see `readBoolArr_eq_readArr`);
the `match` keeps definitional evaluation of the draw loop strict in the
cell value. -/
def readBoolArr (size : Nat) (a : Nat → Bool) (i : Nat) : Except StepError Bool :=
  if i < size then
    match a i with
    | true => Except.ok true
    | false => Except.ok false
  else Except.error StepError.indexOutOfBounds

theorem readBoolArr_eq_readArr (size : Nat) (a : Nat → Bool) (i : Nat) :
    readBoolArr size a i = readArr size a i := by
  unfold readBoolArr readArr
  by_cases h : i < size
  · rw [if_pos h, if_pos h]
    cases a i <;> rfl
  · rw [if_neg h, if_neg h]

/-- `for (i, byte) in data.iter().enumerate() { mem[base + i] = *byte; }` —
the copy loop shared by `initialize_font` and `load`. Both call sites write
only in-bounds addresses (`0x50 + i` with `i < 80`, and `0x200 + i` behind
the capacity guard), so the loop is expressed by plain updates. -/
def copyBytes : (Nat → Nat) → Nat → List Nat → (Nat → Nat)
  | mem, _, [] => mem
  | mem, base, b :: rest => copyBytes (fun j => if j = base then b else mem j) (base + 1) rest

/-- The 16-glyph, 5-bytes-per-glyph font table from `Chip8::initialize_font`. -/
def FONT : List Nat :=
  [0xF0, 0x90, 0x90, 0x90, 0xF0,
   0x20, 0x60, 0x20, 0x20, 0x70,
   0xF0, 0x10, 0xF0, 0x80, 0xF0,
   0xF0, 0x10, 0xF0, 0x10, 0xF0,
   0x90, 0x90, 0xF0, 0x10, 0x10,
   0xF0, 0x80, 0xF0, 0x10, 0xF0,
   0xF0, 0x80, 0xF0, 0x90, 0xF0,
   0xF0, 0x10, 0x20, 0x40, 0x40,
   0xF0, 0x90, 0xF0, 0x90, 0xF0,
   0xF0, 0x90, 0xF0, 0x10, 0xF0,
   0xF0, 0x90, 0xF0, 0x90, 0x90,
   0xE0, 0x90, 0xE0, 0x90, 0xE0,
   0xF0, 0x80, 0x80, 0x80, 0xF0,
   0xE0, 0x90, 0x90, 0x90, 0xE0,
   0xF0, 0x80, 0xF0, 0x80, 0xF0,
   0xF0, 0x80, 0xF0, 0x80, 0x80]

/-- `Chip8::initialize_font`: burn the font table into memory at `0x50`. -/
def initialize_font (memory : Nat → Nat) : Nat → Nat :=
  copyBytes memory 0x50 FONT

/-- The interpreter state (`struct Chip8`). The four fixed-size arrays carry
their sizes in every access: memory `MEMORY_SIZE`, registers 16, display
`SCREEN_WIDTH * SCREEN_HEIGHT`, keyboard 16. -/
structure Chip8 where
  program_counter : Nat
  memory : Nat → Nat
  registers : Nat → Nat
  needs_redraw : Bool
  index_register : Nat
  delay_timer : Nat
  sound_timer : Nat
  display : Nat → Bool
  keyboard : Nat → Bool
  stack : List Nat

/-- `Chip8::new`. -/
def Chip8.new : Chip8 :=
  { program_counter := 0x200
    memory := initialize_font (fun _ => 0)
    registers := fun _ => 0
    needs_redraw := false
    index_register := 0
    delay_timer := 60
    sound_timer := 60
    display := fun _ => false
    keyboard := fun _ => false
    stack := [] }

/-- `Chip8::load`: the capacity guard precedes every write, so the error
case performs no mutation at all. -/
def Chip8.load (s : Chip8) (data : List Nat) : Except LoadError Chip8 :=
  if data.length > MEMORY_SIZE - 0x200 then Except.error LoadError.capacity
  else Except.ok { s with memory := copyBytes s.memory 0x200 data }

/-- `Chip8::get_display`. -/
def Chip8.get_display (s : Chip8) : Nat → Bool :=
  s.display

/-- `Chip8::reset`. The source assigns `needs_redraw = false` and then
`needs_redraw = true` as its last statement; the net effect is `true`. -/
def Chip8.reset (s : Chip8) : Chip8 :=
  { s with
    program_counter := 0x200
    display := fun _ => false
    memory := initialize_font (fun _ => 0)
    registers := fun _ => 0
    index_register := 0
    delay_timer := 60
    sound_timer := 60
    keyboard := fun _ => false
    stack := []
    needs_redraw := true }

/-- `Chip8::combine_nibbles`. -/
def combine_nibbles (n1 n2 n3 : Nat) : Nat :=
  ((n1 &&& 0xf) <<< 8) ||| ((n2 &&& 0xf) <<< 4) ||| (n3 &&& 0xf)

/-- `Chip8::clear_screen`: set every display cell to `false`. -/
def Chip8.clear_screen (s : Chip8) : Chip8 :=
  { s with display := fun _ => false }

/-- The inner `for sprite_pos in 0..8` loop of the `DXYN` handler. `count`
is the number of remaining iterations (started at 8); the source's
`if x_pos >= SCREEN_WIDTH { break; }` guard is kept verbatim (it tests
`x_pos` itself, not `x_pos + sprite_pos`). -/
def drawRow (pixels x_pos y_row : Nat) :
    Nat → Nat → (Nat → Bool) → Bool → Except StepError ((Nat → Bool) × Bool)
  | 0, _, disp, flipped => Except.ok (disp, flipped)
  | count + 1, sprite_pos, disp, flipped =>
    if x_pos ≥ SCREEN_WIDTH then Except.ok (disp, flipped)
    else do
      let sprite_pixel : Bool := (pixels &&& (0b10000000 >>> sprite_pos)) != 0
      let index := (x_pos + sprite_pos) + y_row * SCREEN_WIDTH
      let d ← readBoolArr (SCREEN_WIDTH * SCREEN_HEIGHT) disp index
      let flipped := flipped || (d != sprite_pixel)
      let disp ← writeArr (SCREEN_WIDTH * SCREEN_HEIGHT) disp index (xor d sprite_pixel)
      drawRow pixels x_pos y_row count (sprite_pos + 1) disp flipped

/-- The outer `for row_num in 0..num_bytes` loop of the `DXYN` handler.
`count` is the number of remaining rows (started at `num_bytes`); the
source's `if y_pos >= SCREEN_HEIGHT { break; }` guard is kept verbatim
(it tests `y_pos` itself, not `y_pos + row_num`), and the sprite byte is
fetched before that guard, as in the source. -/
def drawSprite (memory : Nat → Nat) (I x_pos y_pos : Nat) :
    Nat → Nat → (Nat → Bool) → Bool → Except StepError ((Nat → Bool) × Bool)
  | 0, _, disp, flipped => Except.ok (disp, flipped)
  | count + 1, row_num, disp, flipped => do
    let pixels ← readArr MEMORY_SIZE memory ((I + row_num) % 65536)
    if y_pos ≥ SCREEN_HEIGHT then Except.ok (disp, flipped)
    else do
      let (disp', flipped') ← drawRow pixels x_pos (y_pos + row_num) 8 0 disp flipped
      drawSprite memory I x_pos y_pos count (row_num + 1) disp' flipped'

/-- The `for (i, key) in keyboard.iter().enumerate()` loop of the `FX0A`
handler: every pressed key writes its index into register `reg` (so the last
pressed index wins) and records that some key was pressed. `count` is the
number of remaining keys (started at 16). -/
def waitKey (keyboard : Nat → Bool) (reg : Nat) :
    Nat → Nat → (Nat → Nat) → Bool → Except StepError ((Nat → Nat) × Bool)
  | 0, _, regs, any => Except.ok (regs, any)
  | count + 1, i, regs, any =>
    if keyboard i then do
      let regs' ← writeArr 16 regs reg i
      waitKey keyboard reg count (i + 1) regs' true
    else waitKey keyboard reg count (i + 1) regs any

/-- The `for i in 0..=x` loop of `FX55`: memory[I + i] = registers[i].
`count` is the number of remaining iterations (started at `x + 1`). -/
def regsToMem (regs : Nat → Nat) (base : Nat) :
    Nat → Nat → (Nat → Nat) → Except StepError (Nat → Nat)
  | 0, _, mem => Except.ok mem
  | count + 1, i, mem => do
    let v ← readArr 16 regs i
    let mem' ← writeArr MEMORY_SIZE mem (base + i) v
    regsToMem regs base count (i + 1) mem'

/-- The `for i in 0..=x` loop of `FX65`: registers[i] = memory[I + i]. -/
def memToRegs (mem : Nat → Nat) (base : Nat) :
    Nat → Nat → (Nat → Nat) → Except StepError (Nat → Nat)
  | 0, _, regs => Except.ok regs
  | count + 1, i, regs => do
    let v ← readArr MEMORY_SIZE mem (base + i)
    let regs' ← writeArr 16 regs i v
    memToRegs mem base count (i + 1) regs'

/-- The dispatch `match` of `Chip8::step`, operating on the state whose
program counter has already been advanced by 2. The arms appear in source
order (the two `0x0`-family special patterns are placed before the
`(0x0, _, _, _)` no-op, preserving Rust's first-match semantics). -/
def Chip8.execute (s : Chip8) (byte1 byte2 randValue : Nat) : Except StepError Chip8 :=
  match byte1 / 16, byte1 % 16, byte2 / 16, byte2 % 16 with
  | 0x0, 0x0, 0xE, 0x0 =>
    Except.ok { s.clear_screen with needs_redraw := true }
  | 0x0, 0x0, 0xE, 0xE =>
    match s.stack with
    | [] => Except.error StepError.stackUnderflow
    | v :: rest => Except.ok { s with program_counter := v, stack := rest }
  | 0x1, nib1, nib2, nib3 =>
    Except.ok { s with program_counter := combine_nibbles nib1 nib2 nib3 }
  | 0x2, nib1, nib2, nib3 =>
    Except.ok { s with
      stack := s.program_counter :: s.stack
      program_counter := combine_nibbles nib1 nib2 nib3 }
  | 0x3, reg, _, _ => do
    let v ← readArr 16 s.registers reg
    if v = byte2 then
      Except.ok { s with program_counter := (s.program_counter + 2) % 65536 }
    else Except.ok s
  | 0x4, reg, _, _ => do
    let v ← readArr 16 s.registers reg
    if v ≠ byte2 then
      Except.ok { s with program_counter := (s.program_counter + 2) % 65536 }
    else Except.ok s
  | 0x5, reg1, reg2, 0x0 => do
    let v1 ← readArr 16 s.registers reg1
    let v2 ← readArr 16 s.registers reg2
    if v1 = v2 then
      Except.ok { s with program_counter := (s.program_counter + 2) % 65536 }
    else Except.ok s
  | 0x9, reg1, reg2, 0x0 => do
    let v1 ← readArr 16 s.registers reg1
    let v2 ← readArr 16 s.registers reg2
    if v1 ≠ v2 then
      Except.ok { s with program_counter := (s.program_counter + 2) % 65536 }
    else Except.ok s
  | 0x6, reg, _, _ => do
    let regs ← writeArr 16 s.registers reg byte2
    Except.ok { s with registers := regs }
  | 0x7, reg, _, _ => do
    let v ← readArr 16 s.registers reg
    let regs ← writeArr 16 s.registers reg ((v + byte2) % 256)
    Except.ok { s with registers := regs }
  | 0x8, reg1, reg2, 0x0 => do
    let v2 ← readArr 16 s.registers reg2
    let regs ← writeArr 16 s.registers reg1 v2
    Except.ok { s with registers := regs }
  | 0x8, reg1, reg2, 0x1 => do
    let v1 ← readArr 16 s.registers reg1
    let v2 ← readArr 16 s.registers reg2
    let regs ← writeArr 16 s.registers reg1 (v1 ||| v2)
    Except.ok { s with registers := regs }
  | 0x8, reg1, reg2, 0x2 => do
    let v1 ← readArr 16 s.registers reg1
    let v2 ← readArr 16 s.registers reg2
    let regs ← writeArr 16 s.registers reg1 (v1 &&& v2)
    Except.ok { s with registers := regs }
  | 0x8, reg1, reg2, 0x3 => do
    let v1 ← readArr 16 s.registers reg1
    let v2 ← readArr 16 s.registers reg2
    let regs ← writeArr 16 s.registers reg1 (v1 ^^^ v2)
    Except.ok { s with registers := regs }
  | 0x8, reg1, reg2, 0x4 => do
    let v1 ← readArr 16 s.registers reg1
    let v2 ← readArr 16 s.registers reg2
    let value := (v1 + v2) % 256
    let regs ← writeArr 16 s.registers 0xf (if v1 + v2 > 255 then 1 else 0)
    let regs' ← writeArr 16 regs reg1 value
    Except.ok { s with registers := regs' }
  | 0x8, reg1, reg2, 0x5 => do
    let v1 ← readArr 16 s.registers reg1
    let v2 ← readArr 16 s.registers reg2
    let value := (256 + v1 - v2) % 256
    let regs ← writeArr 16 s.registers 0xf (if v1 < v2 then 1 else 0)
    let regs' ← writeArr 16 regs reg1 value
    Except.ok { s with registers := regs' }
  | 0x8, reg1, _, 0x6 => do
    let v1 ← readArr 16 s.registers reg1
    let regs ← writeArr 16 s.registers 0xf (v1 % 2)
    let v1' ← readArr 16 regs reg1
    let regs' ← writeArr 16 regs reg1 (v1' / 2)
    Except.ok { s with registers := regs' }
  | 0x8, reg1, reg2, 0x7 => do
    let v1 ← readArr 16 s.registers reg1
    let v2 ← readArr 16 s.registers reg2
    let value := (256 + v2 - v1) % 256
    let regs ← writeArr 16 s.registers 0xf (if v2 < v1 then 1 else 0)
    let regs' ← writeArr 16 regs reg1 value
    Except.ok { s with registers := regs' }
  | 0x8, reg1, _, 0xe => do
    let v1 ← readArr 16 s.registers reg1
    let regs ← writeArr 16 s.registers 0xf (v1 &&& (1 <<< 7))
    let v1' ← readArr 16 regs reg1
    let regs' ← writeArr 16 regs reg1 ((v1' <<< 1) % 256)
    Except.ok { s with registers := regs' }
  | 0xa, nib1, nib2, nib3 =>
    Except.ok { s with index_register := combine_nibbles nib1 nib2 nib3 }
  | 0xb, nib1, nib2, nib3 => do
    let v0 ← readArr 16 s.registers 0
    Except.ok { s with program_counter := (combine_nibbles nib1 nib2 nib3 + v0) % 65536 }
  | 0xc, reg, _, _ => do
    let regs ← writeArr 16 s.registers reg ((randValue % 256) &&& byte2)
    Except.ok { s with registers := regs }
  | 0xd, reg1, reg2, num_bytes => do
    let s := { s with needs_redraw := true }
    let vx ← readArr 16 s.registers reg1
    let vy ← readArr 16 s.registers reg2
    let x_pos := vx % SCREEN_WIDTH
    let y_pos := vy % SCREEN_HEIGHT
    let (disp, flipped) ←
      drawSprite s.memory s.index_register x_pos y_pos num_bytes 0 s.display false
    let regs ← writeArr 16 s.registers 0xf (if flipped then 1 else 0)
    Except.ok { s with display := disp, registers := regs }
  | 0xe, reg, 0x9, 0xe => do
    let v ← readArr 16 s.registers reg
    let k ← readArr 16 s.keyboard v
    if k then
      Except.ok { s with program_counter := (s.program_counter + 2) % 65536 }
    else Except.ok s
  | 0xe, reg, 0xa, 0x1 => do
    let v ← readArr 16 s.registers reg
    let k ← readArr 16 s.keyboard v
    if !k then
      Except.ok { s with program_counter := (s.program_counter + 2) % 65536 }
    else Except.ok s
  | 0xf, reg, 0x0, 0x7 => do
    let regs ← writeArr 16 s.registers reg s.delay_timer
    Except.ok { s with registers := regs }
  | 0xf, reg, 0x1, 0x5 => do
    let v ← readArr 16 s.registers reg
    Except.ok { s with delay_timer := v }
  | 0xf, reg, 0x1, 0x8 => do
    let v ← readArr 16 s.registers reg
    Except.ok { s with sound_timer := v }
  | 0xf, reg, 0x1, 0xe => do
    let v ← readArr 16 s.registers reg
    Except.ok { s with index_register := (s.index_register + v) % 65536 }
  | 0xf, reg, 0x0, 0xa => do
    let (regs, any_pressed) ← waitKey s.keyboard reg 16 0 s.registers false
    if !any_pressed then
      Except.ok { s with registers := regs
                         program_counter := (s.program_counter + 65536 - 2) % 65536 }
    else Except.ok { s with registers := regs }
  | 0xf, reg, 0x2, 0x9 => do
    let c ← readArr 16 s.registers reg
    Except.ok { s with index_register := c * 5 }
  | 0xf, reg, 0x3, 0x3 => do
    let num ← readArr 16 s.registers reg
    let mem1 ← writeArr MEMORY_SIZE s.memory s.index_register (num / 100)
    let mem2 ← writeArr MEMORY_SIZE mem1 ((s.index_register + 1) % 65536) ((num / 10) % 10)
    let mem3 ← writeArr MEMORY_SIZE mem2 ((s.index_register + 2) % 65536) (num % 10)
    Except.ok { s with memory := mem3 }
  | 0xf, reg, 0x5, 0x5 => do
    let mem ← regsToMem s.registers s.index_register (reg + 1) 0 s.memory
    Except.ok { s with memory := mem }
  | 0xf, reg, 0x6, 0x5 => do
    let regs ← memToRegs s.memory s.index_register (reg + 1) 0 s.registers
    Except.ok { s with registers := regs }
  | 0x0, _, _, _ => Except.ok s
  | n1, n2, n3, n4 => Except.error (StepError.unimplementedOpcode n1 n2 n3 n4)

/-- `Chip8::step`: fetch the two bytes at `pc`, advance `pc` by 2 before
dispatching, then execute the decoded instruction. -/
def Chip8.step (s : Chip8) (randValue : Nat) : Except StepError Chip8 :=
  match readArr MEMORY_SIZE s.memory s.program_counter with
  | Except.error e => Except.error e
  | Except.ok byte1 =>
    match readArr MEMORY_SIZE s.memory (s.program_counter + 1) with
    | Except.error e => Except.error e
    | Except.ok byte2 =>
      Chip8.execute { s with program_counter := (s.program_counter + 2) % 65536 }
        byte1 byte2 randValue

/-- `Chip8::tick_timers`. -/
def Chip8.tick_timers (s : Chip8) : Chip8 :=
  let s1 := if s.sound_timer > 0 then { s with sound_timer := s.sound_timer - 1 } else s
  if s1.delay_timer > 0 then { s1 with delay_timer := s1.delay_timer - 1 } else s1

/-- `Chip8::press_key`: out-of-range key numbers are silently ignored. -/
def Chip8.press_key (s : Chip8) (key_num : Nat) : Chip8 :=
  if key_num > 0xf then s
  else { s with keyboard := fun j => if j = key_num then true else s.keyboard j }

/-- `Chip8::unpress_key`. -/
def Chip8.unpress_key (s : Chip8) (key_num : Nat) : Chip8 :=
  if key_num > 0xf then s
  else { s with keyboard := fun j => if j = key_num then false else s.keyboard j }

/-- `Chip8::was_redrawn`. -/
def Chip8.was_redrawn (s : Chip8) : Chip8 :=
  { s with needs_redraw := false }

/-- Run `step` a fixed number of times (the host's drive loop), with a fixed
random byte, stopping at the first error. -/
def runSteps (s : Chip8) : Nat → Except StepError Chip8
  | 0 => Except.ok s
  | n + 1 =>
    match s.step 0 with
    | Except.error e => Except.error e
    | Except.ok s' => runSteps s' n

/-- A fresh VM with the given program loaded (all programs used below fit). -/
def loadOrNew (prog : List Nat) : Chip8 :=
  match Chip8.new.load prog with
  | Except.ok s => s
  | Except.error _ => Chip8.new

/-- Observe register `i` after running `steps` instructions of `prog` on a
fresh VM (`none` when execution faulted). -/
def regAfter (prog : List Nat) (steps i : Nat) : Option Nat :=
  match runSteps (loadOrNew prog) steps with
  | Except.ok s => some (s.registers i)
  | Except.error _ => none

/-- Observe the index register after running `steps` instructions. -/
def indexAfter (prog : List Nat) (steps : Nat) : Option Nat :=
  match runSteps (loadOrNew prog) steps with
  | Except.ok s => some (s.index_register)
  | Except.error _ => none

/-- Observe one display cell after running `steps` instructions. -/
def displayCellAfter (prog : List Nat) (steps i : Nat) : Option Bool :=
  match runSteps (loadOrNew prog) steps with
  | Except.ok s => some (s.display i)
  | Except.error _ => none

/-! ### Helper lemmas about the embedding -/

theorem copyBytes_eq_of_lt (data : List Nat) :
    ∀ (mem : Nat → Nat) (base j : Nat), j < base → copyBytes mem base data j = mem j := by
  induction data with
  | nil => intro mem base j h; rfl
  | cons b rest ih =>
    intro mem base j h
    rw [copyBytes, ih _ _ _ (by omega)]
    exact if_neg (by omega)

theorem copyBytes_eq_of_ge (data : List Nat) :
    ∀ (mem : Nat → Nat) (base j : Nat), base + data.length ≤ j →
      copyBytes mem base data j = mem j := by
  induction data with
  | nil => intro mem base j h; rfl
  | cons b rest ih =>
    intro mem base j h
    rw [copyBytes, ih _ _ _ (by simp at h ⊢; omega)]
    exact if_neg (by simp at h; omega)

theorem copyBytes_eq_of_in (data : List Nat) :
    ∀ (mem : Nat → Nat) (base k : Nat), k < data.length →
      copyBytes mem base data (base + k) = data.getD k 0 := by
  induction data with
  | nil => intro mem base k h; simp at h
  | cons b rest ih =>
    intro mem base k h
    rw [copyBytes]
    cases k with
    | zero =>
      rw [copyBytes_eq_of_lt rest _ _ _ (by omega)]
      simp
    | succ k' =>
      rw [show base + (k' + 1) = (base + 1) + k' by omega,
          ih _ _ _ (by simp at h; omega)]
      rfl

/-- Fetching from a state whose program counter (and its successor) are
in-bounds turns `step` into `execute` on the two fetched bytes, with the
program counter already advanced. -/
theorem step_fetch (s : Chip8) (r b1 b2 : Nat)
    (hpc : s.program_counter + 1 < MEMORY_SIZE)
    (h1 : s.memory s.program_counter = b1)
    (h2 : s.memory (s.program_counter + 1) = b2) :
    s.step r =
      Chip8.execute { s with program_counter := (s.program_counter + 2) % 65536 } b1 b2 r := by
  unfold Chip8.step readArr
  rw [if_pos (Nat.lt_trans (Nat.lt_succ_self _) hpc), if_pos hpc, h1, h2]

theorem exceptBind_ok {ε α β : Type} (a : α) (f : α → Except ε β) :
    (Except.ok a >>= f : Except ε β) = f a := rfl

/-- Dispatch of the `00EE` return opcode. -/
theorem execute_ret (s : Chip8) (b2r : Nat) :
    Chip8.execute s 0x00 0xEE b2r =
      match s.stack with
      | [] => Except.error StepError.stackUnderflow
      | v :: rest => Except.ok { s with program_counter := v, stack := rest } := rfl

/-- Dispatch of the `7XNN` immediate-add opcode: any first byte with high
nibble 7 selects the add-immediate arm. -/
theorem execute_add_imm (s : Chip8) (b1 b2 r : Nat) (h : b1 / 16 = 7) :
    Chip8.execute s b1 b2 r = (do
      let v ← readArr 16 s.registers (b1 % 16)
      let regs ← writeArr 16 s.registers (b1 % 16) ((v + b2) % 256)
      Except.ok { s with registers := regs }) := by
  unfold Chip8.execute
  rw [h]

/-- The font bytes as burned by `initialize_font` into zeroed memory. -/
theorem font_burned : ∀ i, i < 80 → initialize_font (fun _ => 0) (0x50 + i) = FONT.getD i 0 := by
  decide

/-! ### Claim theorems -/

/-- C1: the claim states that the register subtractions `8XY5`/`8XY7` set
`VF` to 1 when the minuend is at least the subtrahend (no borrow) and to 0 on
a borrow, so with minuend 10 and subtrahend 5 the flag should be 1 and the
result 5. The code sets the flag the other way round (`VF := 1` exactly when
the subtraction underflowed, contradicting its own comment
`VF = reg1 > reg2`): running `V0 := 10; V1 := 5; V0 := V0 - V1` on a fresh VM
leaves the difference 5 in `V0` but `VF = 0`, refuting the claim. -/
theorem C1_sub_borrow_flag_inverted :
    regAfter [0x60, 0x0A, 0x61, 0x05, 0x80, 0x15] 3 0 = some 5 ∧
    regAfter [0x60, 0x0A, 0x61, 0x05, 0x80, 0x15] 3 0xf = some 0 := by
  constructor <;>
  · dsimp only [regAfter, runSteps, loadOrNew, Chip8.new, Chip8.load, Chip8.step,
      Chip8.execute, readArr, readBoolArr, writeArr, copyBytes, initialize_font, FONT,
      combine_nibbles, drawSprite, drawRow, Chip8.clear_screen, MEMORY_SIZE, SCREEN_WIDTH,
      SCREEN_HEIGHT]
    rfl

/-- C2: the claim states that after a `DXYN` draw, `VF = 1` exactly when some
cell transitioned from set to clear, freshly overwritten per draw, so drawing
the same non-empty sprite twice at (0,0) on a fresh (all-clear) display must
leave `VF = 1` after the second draw. The code instead records
`display_bit != sprite_bit`, which is false on every cell of the second
identical draw (set vs. set, clear vs. clear): the program
`I := 0x50; draw; draw` (drawing the one-row font byte `0xF0` at (0,0)) gives
`VF = 1` after the first draw but `VF = 0` after the second, refuting the
claim; the first pixel cell is indeed clear again after the second draw. -/
theorem C2_draw_collision_flag_wrong :
    regAfter [0xA0, 0x50, 0xD0, 0x11, 0xD0, 0x11] 2 0xf = some 1 ∧
    regAfter [0xA0, 0x50, 0xD0, 0x11, 0xD0, 0x11] 3 0xf = some 0 ∧
    displayCellAfter [0xA0, 0x50, 0xD0, 0x11, 0xD0, 0x11] 3 0 = some false := by
  refine ⟨?_, ?_, ?_⟩ <;>
  · dsimp only [regAfter, displayCellAfter, runSteps, loadOrNew, Chip8.new, Chip8.load,
      Chip8.step, Chip8.execute, readArr, readBoolArr, writeArr, copyBytes, initialize_font,
      FONT, combine_nibbles, drawSprite, drawRow, Chip8.clear_screen, MEMORY_SIZE,
      SCREEN_WIDTH, SCREEN_HEIGHT]
    rfl

/-- C3: the claim states that a `DXYN` sprite overhanging the right or bottom
edge is clipped, with every display access in bounds. The code's edge guards
test `x_pos`/`y_pos` (always `< 64`/`< 32` after the modulo) instead of
`x_pos + sprite_pos`/`y_pos + row_num`, so they never fire: a two-row sprite
drawn at `y = 31` indexes the framebuffer at cell 2048 (past the
64 × 32 = 2048 cells — a Rust panic), and a one-row sprite drawn at `x = 61`
whose fourth column is set writes cell 64 — row 1, column 0, wrapping onto
the next row rather than clipping. Both refute the claim. -/
theorem C3_draw_not_clipped :
    runSteps (loadOrNew [0xA0, 0x50, 0x61, 0x1F, 0xD0, 0x12]) 3
      = Except.error StepError.indexOutOfBounds ∧
    displayCellAfter [0xA0, 0x51, 0x60, 0x3D, 0xD0, 0x11] 3 64 = some true := by
  constructor <;>
  · dsimp only [regAfter, displayCellAfter, runSteps, loadOrNew, Chip8.new, Chip8.load,
      Chip8.step, Chip8.execute, readArr, readBoolArr, writeArr, copyBytes, initialize_font,
      FONT, combine_nibbles, drawSprite, drawRow, Chip8.clear_screen, MEMORY_SIZE,
      SCREEN_WIDTH, SCREEN_HEIGHT]
    rfl

/-- C4: the claim states that `FX29` sets the index register to
`font_base + digit * 5` with `font_base = 0x50` and `digit` the low nibble of
`VX`, so for `V0 = 1` the index register should become `0x55 = 85`. The code
computes `VX * 5` with no base offset (and no low-nibble mask): running
`V0 := 1; FX29` on a fresh VM leaves the index register at 5, which does not
even point into the font table burned in at `0x50..0x9F`, refuting the
claim. -/
theorem C4_font_address_missing_base :
    indexAfter [0x60, 0x01, 0xF0, 0x29] 2 = some 5 := by
  dsimp only [indexAfter, runSteps, loadOrNew, Chip8.new, Chip8.load, Chip8.step,
    Chip8.execute, readArr, readBoolArr, writeArr, copyBytes, initialize_font, FONT,
    combine_nibbles, MEMORY_SIZE]
  rfl

/-- C6: the claim states that both shifts leave the shifted-out bit — a value
0 or 1 — in `VF`. The right shift `8XY6` does (`VX & 1`), but the left shift
`8XYE` stores `VX & 0x80`, which is 128 whenever the high bit is set: running
`V0 := 0x80; V0 := V0 << 1` on a fresh VM leaves `VF = 128` (and `V0 = 0`),
refuting the claim that `VF` receives the bit value 0 or 1. -/
theorem C6_shift_left_flag_not_a_bit :
    regAfter [0x60, 0x80, 0x80, 0x0E] 2 0xf = some 128 ∧
    regAfter [0x60, 0x80, 0x80, 0x0E] 2 0 = some 0 := by
  constructor <;>
  · dsimp only [regAfter, runSteps, loadOrNew, Chip8.new, Chip8.load, Chip8.step,
      Chip8.execute, readArr, readBoolArr, writeArr, copyBytes, initialize_font, FONT,
      combine_nibbles, MEMORY_SIZE]
    rfl

/-- C5 counterexample: the claim requires both timers to be zero immediately
after construction, but `Chip8::new` initializes `delay_timer` and
`sound_timer` to 60. -/
theorem C5_timers_not_zero_after_new :
    ¬ (Chip8.new.delay_timer = 0 ∧ Chip8.new.sound_timer = 0) := by
  decide

/-- C5 (amended): immediately after construction and immediately after
`reset()`, the delay and sound timers are both 60 (not zero as the claim
states), all 16 general-purpose registers are zero, the call stack is empty,
all 16 keypad flags are clear, the framebuffer is all-clear, the font table
occupies memory `0x50..0x9F`, and the program counter is `0x200`. -/
theorem C5_init_reset_state (s : Chip8) :
    Chip8.new.delay_timer = 60 ∧ Chip8.new.sound_timer = 60 ∧
    (∀ i, i < 16 → Chip8.new.registers i = 0) ∧
    Chip8.new.stack = [] ∧
    (∀ i, i < 16 → Chip8.new.keyboard i = false) ∧
    (∀ i, i < SCREEN_WIDTH * SCREEN_HEIGHT → Chip8.new.display i = false) ∧
    (∀ i, i < 80 → Chip8.new.memory (0x50 + i) = FONT.getD i 0) ∧
    Chip8.new.program_counter = 0x200 ∧
    (s.reset).delay_timer = 60 ∧ (s.reset).sound_timer = 60 ∧
    (∀ i, i < 16 → (s.reset).registers i = 0) ∧
    (s.reset).stack = [] ∧
    (∀ i, i < 16 → (s.reset).keyboard i = false) ∧
    (∀ i, i < SCREEN_WIDTH * SCREEN_HEIGHT → (s.reset).display i = false) ∧
    (∀ i, i < 80 → (s.reset).memory (0x50 + i) = FONT.getD i 0) ∧
    (s.reset).program_counter = 0x200 := by
  refine ⟨rfl, rfl, fun i _ => rfl, rfl, fun i _ => rfl, fun i _ => rfl,
          font_burned, rfl,
          rfl, rfl, fun i _ => rfl, rfl, fun i _ => rfl, fun i _ => rfl,
          font_burned, rfl⟩

/-- C5 witness: the amended theorem applied at a concrete state. -/
theorem C5_init_reset_state_witness : Chip8.new.delay_timer = 60 :=
  (C5_init_reset_state Chip8.new).1

/-- C7: `load(bytes)` succeeds and copies the bytes verbatim into memory from
`0x200` if and only if the length is at most `MEMORY_SIZE - 0x200 = 3584`;
otherwise it fails with the capacity error. The length guard precedes every
write (the panic model carries no state), so a failing load performs no
partial write: on success every byte outside the copied range is also shown
unchanged. -/
theorem C7_load_spec (s : Chip8) (data : List Nat) :
    (data.length ≤ MEMORY_SIZE - 0x200 →
      ∃ s', s.load data = Except.ok s' ∧
        (∀ k, k < data.length → s'.memory (0x200 + k) = data.getD k 0) ∧
        (∀ j, j < 0x200 ∨ 0x200 + data.length ≤ j → s'.memory j = s.memory j) ∧
        s'.program_counter = s.program_counter ∧ s'.registers = s.registers ∧
        s'.stack = s.stack ∧ s'.display = s.display ∧ s'.keyboard = s.keyboard ∧
        s'.delay_timer = s.delay_timer ∧ s'.sound_timer = s.sound_timer ∧
        s'.index_register = s.index_register) ∧
    (MEMORY_SIZE - 0x200 < data.length → s.load data = Except.error LoadError.capacity) := by
  constructor
  · intro hle
    unfold Chip8.load
    rw [if_neg (not_lt.mpr hle)]
    refine ⟨_, rfl, ?_, ?_, rfl, rfl, rfl, rfl, rfl, rfl, rfl, rfl⟩
    · intro k hk
      exact copyBytes_eq_of_in data s.memory 0x200 k hk
    · intro j hj
      rcases hj with h | h
      · exact copyBytes_eq_of_lt data s.memory 0x200 j h
      · exact copyBytes_eq_of_ge data s.memory 0x200 j h
  · intro hgt
    unfold Chip8.load
    rw [if_pos hgt]

/-- C7 witness: a three-byte program loads into a fresh VM and lands at
`0x200`. -/
theorem C7_load_spec_witness :
    ∃ s', Chip8.new.load [1, 2, 3] = Except.ok s' ∧ s'.memory 0x200 = 1 := by
  obtain ⟨s', hok, hin, -⟩ := (C7_load_spec Chip8.new [1, 2, 3]).1 (by decide)
  exact ⟨s', hok, by simpa using hin 0 (by decide)⟩

/-- C8: executing the return opcode `00EE` pops the call stack into the
program counter when the stack is non-empty, and fails fatally with
`StackUnderflow` when the call stack is empty. -/
theorem C8_return_spec (s : Chip8) (r : Nat)
    (hpc : s.program_counter + 1 < MEMORY_SIZE)
    (h1 : s.memory s.program_counter = 0x00)
    (h2 : s.memory (s.program_counter + 1) = 0xEE) :
    (s.stack = [] → s.step r = Except.error StepError.stackUnderflow) ∧
    (∀ v rest, s.stack = v :: rest →
      ∃ s', s.step r = Except.ok s' ∧ s'.program_counter = v ∧ s'.stack = rest ∧
        s'.memory = s.memory ∧ s'.registers = s.registers ∧ s'.display = s.display) := by
  rw [step_fetch s r 0x00 0xEE hpc h1 h2, execute_ret]
  have hstk : ({ s with program_counter := (s.program_counter + 2) % 65536 } : Chip8).stack
      = s.stack := rfl
  rw [hstk]
  constructor
  · intro h
    rw [h]
  · intro v rest h
    rw [h]
    exact ⟨_, rfl, rfl, rfl, rfl, rfl, rfl⟩

/-- A fresh VM whose program is the single return instruction `00EE`. -/
def freshWithRet : Chip8 := loadOrNew [0x00, 0xEE]

/-- C8 witness: a freshly constructed VM whose first executed instruction is
`00EE` fails with `StackUnderflow`. -/
theorem C8_return_spec_witness :
    freshWithRet.step 0 = Except.error StepError.stackUnderflow :=
  (C8_return_spec freshWithRet 0 (by decide) (by decide) (by decide)).1 (by rfl)

/-- C9: `tick_timers()` decrements each nonzero timer by exactly 1, leaves a
zero timer at zero (saturating, never wrapping), and changes no other state
component. -/
theorem C9_tick_timers_spec (s : Chip8) :
    (s.delay_timer ≠ 0 → s.tick_timers.delay_timer = s.delay_timer - 1) ∧
    (s.delay_timer = 0 → s.tick_timers.delay_timer = 0) ∧
    (s.sound_timer ≠ 0 → s.tick_timers.sound_timer = s.sound_timer - 1) ∧
    (s.sound_timer = 0 → s.tick_timers.sound_timer = 0) ∧
    s.tick_timers.memory = s.memory ∧
    s.tick_timers.registers = s.registers ∧
    s.tick_timers.index_register = s.index_register ∧
    s.tick_timers.program_counter = s.program_counter ∧
    s.tick_timers.stack = s.stack ∧
    s.tick_timers.display = s.display ∧
    s.tick_timers.keyboard = s.keyboard ∧
    s.tick_timers.needs_redraw = s.needs_redraw := by
  unfold Chip8.tick_timers
  by_cases h1 : s.sound_timer > 0 <;> by_cases h2 : s.delay_timer > 0 <;>
    simp [h1, h2] <;> omega

/-- C9 witness: ticking a fresh VM takes the delay timer from 60 to 59. -/
theorem C9_tick_timers_spec_witness : Chip8.new.tick_timers.delay_timer = 59 := by
  have h := (C9_tick_timers_spec Chip8.new).1 (by decide)
  rw [h]
  decide

/-- C10: executing the immediate-add opcode `7XNN` sets `VX` to
`(VX + NN) % 256` — wrapping, never failing — and leaves the flag register
`VF` unchanged unless `X` is itself the flag register. -/
theorem C10_add_immediate (s : Chip8) (r x nn : Nat) (hx : x < 16)
    (hpc : s.program_counter + 1 < MEMORY_SIZE)
    (h1 : s.memory s.program_counter = 0x70 + x)
    (h2 : s.memory (s.program_counter + 1) = nn) :
    ∃ s', s.step r = Except.ok s' ∧
      s'.registers x = (s.registers x + nn) % 256 ∧
      (x ≠ 0xf → s'.registers 0xf = s.registers 0xf) ∧
      s'.program_counter = (s.program_counter + 2) % 65536 := by
  rw [step_fetch s r (0x70 + x) nn hpc h1 h2,
      execute_add_imm _ _ _ _ (by omega)]
  have hx16 : (0x70 + x) % 16 = x := by omega
  rw [hx16]
  simp only [readArr, writeArr, hx, if_true, exceptBind_ok]
  refine ⟨_, rfl, ?_, ?_, rfl⟩
  · simp
  · intro hne
    have hne' : (0xf : Nat) ≠ x := fun h => hne h.symm
    simp [hne']

/-- The program `V1 += 7` on a fresh VM. -/
def c10s : Chip8 := loadOrNew [0x71, 0x07]

/-- C10 witness: the immediate-add theorem applied to the concrete program
`V1 += 7` on a fresh VM. -/
theorem C10_add_immediate_witness :
    ∃ s', c10s.step 0 = Except.ok s' ∧
      s'.registers 1 = (c10s.registers 1 + 7) % 256 ∧
      (1 ≠ 0xf → s'.registers 0xf = c10s.registers 0xf) ∧
      s'.program_counter = (c10s.program_counter + 2) % 65536 :=
  C10_add_immediate c10s 0 1 7 (by decide) (by decide) (by decide) (by decide)
